import Mathlib

/-!
Shallow embedding of the gracex renderer (`src/renderer.rs`, `src/primitives.rs`).

Geometry is embedded over `ℚ` (idealising the `f32`/`f64` arithmetic of the
source). Paths are modelled as lists of path verbs, mirroring the
`tiny_skia::PathBuilder` calls made by the renderer. The external tiny-skia
rasterisation operations (`PathBuilder::finish`, `Pixmap::fill_path`,
`Pixmap::stroke_path`, `Pixmap::save_png`) are external collaborators of this
crate; they are modelled as an abstract `Raster` record of functions, so every
theorem about the renderer's control flow holds for an arbitrary rasteriser.
The pixel buffer (`tiny_skia::Pixmap`) is modelled concretely as a sized list
of RGBA8 colours.
-/

namespace GraceX

/-- `primitives.rs`: `Point { x: f64, y: f64 }`, embedded over `ℚ`. -/
structure Pt where
  x : ℚ
  y : ℚ
deriving DecidableEq, Repr

/-- `primitives.rs`: `Color { r, g, b, a: u8 }`. -/
structure Color where
  r : Nat
  g : Nat
  b : Nat
  a : Nat
deriving DecidableEq, Repr

/-- `primitives.rs`: `Stroke { color: Option<Color>, width: f64 }`. -/
structure Stroke where
  color : Option Color
  width : ℚ
deriving DecidableEq, Repr

/-- `primitives.rs`: the `DrawCommand` enum (closed set of five variants).
The Rust field `end` of `Line` is called `stop` here (`end` is a keyword). -/
inductive DrawCommand where
  | circle (position : Pt) (radius : ℚ) (fill : Option Color) (stroke : Option Stroke)
  | line (start : Pt) (stop : Pt) (stroke : Option Stroke)
  | rectangle (position : Pt) (width height : ℚ) (fill : Option Color) (stroke : Option Stroke)
  | polygon (points : List Pt) (fill : Option Color) (stroke : Option Stroke)
  | text (position : Pt) (content : String) (fontSize : ℚ) (color : Option Color)
deriving DecidableEq, Repr

/-- `Default for Point` in `primitives.rs`: the origin. -/
def Pt.default : Pt := ⟨0, 0⟩

/-- `Default for Color` in `primitives.rs`: opaque black. -/
def Color.default : Color := ⟨0, 0, 0, 255⟩

/-- `Default for Stroke` in `primitives.rs`: opaque black, width 2. -/
def Stroke.default : Stroke := ⟨some Color.default, 2⟩

/-- Path verbs, mirroring the `tiny_skia::PathBuilder` methods used by the
renderer (`move_to`, `line_to`, `cubic_to`, `close`). -/
inductive Verb where
  | moveTo (p : Pt)
  | lineTo (p : Pt)
  | cubicTo (c1 c2 p : Pt)
  | close
deriving DecidableEq, Repr

/-- `tiny_skia::SkiaColor::WHITE`: fully opaque white. -/
def skiaWhite : Color := ⟨255, 255, 255, 255⟩

/-- `renderer.rs` `to_skia_color`: componentwise conversion. -/
def toSkiaColor (c : Color) : Color := ⟨c.r, c.g, c.b, c.a⟩

/-- A tiny-skia `Paint`: the renderer only ever sets the colour and turns
anti-aliasing on (`create_paint`). -/
structure Paint where
  color : Color
  antiAlias : Bool
deriving DecidableEq, Repr

/-- `renderer.rs` `create_paint`: paint with the given colour, anti-aliased. -/
def createPaint (c : Color) : Paint := ⟨toSkiaColor c, true⟩

/-- A tiny-skia `Stroke` descriptor: the renderer only ever sets the width
(`create_stroke`); join/cap defaults of the rasteriser are accepted as-is. -/
structure SkStroke where
  width : ℚ
deriving DecidableEq, Repr

/-- `renderer.rs` `create_stroke`: builds a default tiny-skia stroke, sets its
width and returns `Some` of it. -/
def createStroke (stroke : Stroke) : Option SkStroke :=
  some ⟨stroke.width⟩

/-- `tiny_skia::FillRule`; the renderer always passes `Winding`. -/
inductive FillRule where
  | winding
  | evenOdd
deriving DecidableEq, Repr

/-- `tiny_skia::Pixmap`: a width×height RGBA8 buffer. -/
structure Pixmap where
  width : Nat
  height : Nat
  pixels : List Color
deriving DecidableEq, Repr

/-- `Pixmap::new`: fails (returns `None`) for a zero dimension, otherwise a
transparent buffer of `width*height` pixels. -/
def Pixmap.new (w h : Nat) : Option Pixmap :=
  if w = 0 ∨ h = 0 then none
  else some ⟨w, h, List.replicate (w * h) ⟨0, 0, 0, 0⟩⟩

/-- `Pixmap::fill`: overwrite every pixel with the given colour. -/
def Pixmap.fill (pm : Pixmap) (c : Color) : Pixmap :=
  ⟨pm.width, pm.height, List.replicate (pm.width * pm.height) c⟩

/-- The external tiny-skia operations the renderer calls but does not define:
path finalisation, scan-converting fill and stroke, and PNG encoding. All
renderer theorems are stated for an arbitrary such rasteriser. -/
structure Raster where
  finish : List Verb → Option (List Verb)
  fillPath : Pixmap → List Verb → Paint → FillRule → Pixmap
  strokePath : Pixmap → List Verb → Paint → SkStroke → Pixmap
  savePng : Pixmap → String → Except String Unit

/-- `renderer.rs` `draw_circle`, path-construction part: the magic constant. -/
def k : ℚ := 5522847498 / 10000000000

/-- The verbs issued by `draw_circle` on its `PathBuilder`: move to the west
cardinal point, then one cubic Bézier per quadrant, then close. -/
def circleVerbs (cx cy r : ℚ) : List Verb :=
  let kr := k * r
  [ Verb.moveTo ⟨cx - r, cy⟩,
    Verb.cubicTo ⟨cx - r, cy - kr⟩ ⟨cx - kr, cy - r⟩ ⟨cx, cy - r⟩,
    Verb.cubicTo ⟨cx + kr, cy - r⟩ ⟨cx + r, cy - kr⟩ ⟨cx + r, cy⟩,
    Verb.cubicTo ⟨cx + r, cy + kr⟩ ⟨cx + kr, cy + r⟩ ⟨cx, cy + r⟩,
    Verb.cubicTo ⟨cx - kr, cy + r⟩ ⟨cx - r, cy + kr⟩ ⟨cx - r, cy⟩,
    Verb.close ]

/-- The verbs issued by `draw_line`: move to `start`, line to `end`, no close. -/
def lineVerbs (s e : Pt) : List Verb :=
  [Verb.moveTo s, Verb.lineTo e]

/-- The verbs issued by `draw_rectangle`: the four corners from the top-left
position plus width/height, closed. -/
def rectVerbs (pos : Pt) (w h : ℚ) : List Verb :=
  [ Verb.moveTo ⟨pos.x, pos.y⟩,
    Verb.lineTo ⟨pos.x + w, pos.y⟩,
    Verb.lineTo ⟨pos.x + w, pos.y + h⟩,
    Verb.lineTo ⟨pos.x, pos.y + h⟩,
    Verb.close ]

/-- The verbs issued by `draw_polygon` on a non-empty point list: move to
`points[0]`, line to each subsequent point, close. Empty list: no verbs. -/
def polygonVerbs : List Pt → List Verb
  | [] => []
  | p :: rest => Verb.moveTo p :: (rest.map Verb.lineTo ++ [Verb.close])

/-- Segments of a path: what the verb list denotes geometrically. -/
inductive Seg where
  | lineSeg (p0 p1 : Pt)
  | cubicSeg (p0 c1 c2 p1 : Pt)
  | closeSeg (p0 p1 : Pt)
deriving DecidableEq, Repr

/-- Decompose a verb list into segments, tracking the current point and the
start of the current subpath (for `close`). -/
def segmentsAux : Pt → Pt → List Verb → List Seg
  | _, _, [] => []
  | _, _, Verb.moveTo p :: vs => segmentsAux p p vs
  | first, cur, Verb.lineTo p :: vs => Seg.lineSeg cur p :: segmentsAux first p vs
  | first, cur, Verb.cubicTo c1 c2 p :: vs =>
      Seg.cubicSeg cur c1 c2 p :: segmentsAux first p vs
  | first, cur, Verb.close :: vs => Seg.closeSeg cur first :: segmentsAux first first vs

/-- Segments of a verb list, starting from the origin. -/
def segments (vs : List Verb) : List Seg := segmentsAux ⟨0, 0⟩ ⟨0, 0⟩ vs

/-- Whether a segment is a cubic Bézier. -/
def Seg.isCubic : Seg → Bool
  | Seg.cubicSeg _ _ _ _ => true
  | _ => false

/-- The on-curve target point of a segment. -/
def Seg.target : Seg → Pt
  | Seg.lineSeg _ p1 => p1
  | Seg.cubicSeg _ _ _ p1 => p1
  | Seg.closeSeg _ p1 => p1

/-- Squared Euclidean distance between two points. -/
def sqDist (p q : Pt) : ℚ := (p.x - q.x) ^ 2 + (p.y - q.y) ^ 2

/-- For a cubic segment, the squared distances of each control point from its
adjacent on-curve endpoint (the control-point offsets); `[]` otherwise. -/
def Seg.controlOffsetsSq : Seg → List ℚ
  | Seg.cubicSeg p0 c1 c2 p1 => [sqDist c1 p0, sqDist c2 p1]
  | _ => []

/-- Number of cubic Bézier segments in a path. -/
def countCubics (vs : List Verb) : Nat :=
  ((segments vs).filter Seg.isCubic).length

/-- On-curve target points of the cubic segments of a path, in order. -/
def cubicTargets (vs : List Verb) : List Pt :=
  ((segments vs).filter Seg.isCubic).map Seg.target

/-- Squared control-point offsets of every cubic segment of a path. -/
def controlOffsetsSq (vs : List Verb) : List ℚ :=
  ((segments vs).map Seg.controlOffsetsSq).flatten

/-- First point the path moves to, if any. -/
def pathStart : List Verb → Option Pt
  | Verb.moveTo p :: _ => some p
  | _ => none

/-- `renderer.rs` `PngRenderer { width, height, file_path }`. -/
structure PngRenderer where
  width : Nat
  height : Nat
  filePath : String
deriving DecidableEq, Repr

/-- `renderer.rs` `draw_circle`: build the 4-Bézier circle path, finalise it
(error on failure), fill if a fill colour is given, then stroke if a stroke
whose colour is present is given. -/
def drawCircle (R : Raster) (pm : Pixmap) (position : Pt) (radius : ℚ)
    (fill : Option Color) (stroke : Option Stroke) : Except String Pixmap :=
  match R.finish (circleVerbs position.x position.y radius) with
  | none => Except.error "Failed to build circle path"
  | some path =>
    let pm1 := match fill with
      | some fillColor => R.fillPath pm path (createPaint fillColor) FillRule.winding
      | none => pm
    match stroke with
    | none => Except.ok pm1
    | some strokeSpec =>
      match strokeSpec.color with
      | none => Except.ok pm1
      | some strokeColor =>
        match createStroke strokeSpec with
        | none => Except.error "Failed to create stroke"
        | some skiaStroke =>
            Except.ok (R.strokePath pm1 path (createPaint strokeColor) skiaStroke)

/-- `renderer.rs` `draw_line`: open two-point path, finalise, stroke only
(a line has no fill), and only when the stroke's colour is present. -/
def drawLine (R : Raster) (pm : Pixmap) (start stop : Pt)
    (stroke : Option Stroke) : Except String Pixmap :=
  match R.finish (lineVerbs start stop) with
  | none => Except.error "Failed to build line path"
  | some path =>
    match stroke with
    | none => Except.ok pm
    | some strokeSpec =>
      match strokeSpec.color with
      | none => Except.ok pm
      | some strokeColor =>
        match createStroke strokeSpec with
        | none => Except.error "Failed to create stroke"
        | some skiaStroke =>
            Except.ok (R.strokePath pm path (createPaint strokeColor) skiaStroke)

/-- `renderer.rs` `draw_rectangle`: closed four-corner path, finalise, fill
then stroke under the same gating as the circle. -/
def drawRectangle (R : Raster) (pm : Pixmap) (position : Pt) (w h : ℚ)
    (fill : Option Color) (stroke : Option Stroke) : Except String Pixmap :=
  match R.finish (rectVerbs position w h) with
  | none => Except.error "Failed to build rectangle path"
  | some path =>
    let pm1 := match fill with
      | some fillColor => R.fillPath pm path (createPaint fillColor) FillRule.winding
      | none => pm
    match stroke with
    | none => Except.ok pm1
    | some strokeSpec =>
      match strokeSpec.color with
      | none => Except.ok pm1
      | some strokeColor =>
        match createStroke strokeSpec with
        | none => Except.error "Failed to create stroke"
        | some skiaStroke =>
            Except.ok (R.strokePath pm1 path (createPaint strokeColor) skiaStroke)

/-- `renderer.rs` `draw_polygon`: empty point list is an immediate `Ok` no-op;
otherwise move/line/close path, finalise (error on failure), fill then stroke
under the same gating as the circle. -/
def drawPolygon (R : Raster) (pm : Pixmap) (points : List Pt)
    (fill : Option Color) (stroke : Option Stroke) : Except String Pixmap :=
  match points with
  | [] => Except.ok pm
  | _ :: _ =>
    match R.finish (polygonVerbs points) with
    | none => Except.error "Failed to build polygon path"
    | some path =>
      let pm1 := match fill with
        | some fillColor => R.fillPath pm path (createPaint fillColor) FillRule.winding
        | none => pm
      match stroke with
      | none => Except.ok pm1
      | some strokeSpec =>
        match strokeSpec.color with
        | none => Except.ok pm1
        | some strokeColor =>
          match createStroke strokeSpec with
          | none => Except.error "Failed to create stroke"
          | some skiaStroke =>
              Except.ok (R.strokePath pm1 path (createPaint strokeColor) skiaStroke)

/-- The diagnostic a `Text` command emits (the `println!` in `render`): it
identifies the text content and its position, and touches no pixel. -/
structure TextEvent where
  content : String
  position : Pt
deriving DecidableEq, Repr

/-- One arm of the `match command` dispatch in `render`: the resulting pixel
buffer (or error) together with the diagnostics the arm emits. -/
def processCommand (R : Raster) (pm : Pixmap) :
    DrawCommand → Except String Pixmap × List TextEvent
  | DrawCommand.circle position radius fill stroke =>
      (drawCircle R pm position radius fill stroke, [])
  | DrawCommand.line start stop stroke => (drawLine R pm start stop stroke, [])
  | DrawCommand.rectangle position w h fill stroke =>
      (drawRectangle R pm position w h fill stroke, [])
  | DrawCommand.polygon points fill stroke => (drawPolygon R pm points fill stroke, [])
  | DrawCommand.text position content _ _ => (Except.ok pm, [⟨content, position⟩])

/-- The `for command in commands` loop of `render`: process commands in list
order, threading the pixel buffer; the `?` operator aborts at the first error,
leaving the remaining commands unprocessed. -/
def processCommands (R : Raster) :
    Pixmap → List TextEvent → List DrawCommand → Except String Pixmap × List TextEvent
  | pm, ds, [] => (Except.ok pm, ds)
  | pm, ds, c :: cs =>
    match processCommand R pm c with
    | (Except.ok pm1, es) => processCommands R pm1 (ds ++ es) cs
    | (Except.error e, es) => (Except.error e, ds ++ es)

/-- The outcome of one `render` call: the returned result, the pixel buffer
handed to `save_png` (`none` when `save_png` was never invoked), and the
diagnostics printed along the way. -/
structure RenderOutcome where
  result : Except String Unit
  written : Option Pixmap
  diagnostics : List TextEvent
deriving Repr

/-- The tail of `render` after the canvas exists: run the command loop on the
given canvas; only when every command succeeded is the buffer saved. -/
def renderFrom (R : Raster) (fp : String) (pm : Pixmap)
    (commands : List DrawCommand) : RenderOutcome :=
  match processCommands R pm [] commands with
  | (Except.ok pmF, ds) => ⟨R.savePng pmF fp, some pmF, ds⟩
  | (Except.error e, ds) => ⟨Except.error e, none, ds⟩

/-- `renderer.rs` `render`: allocate the pixmap (error if that fails), fill it
with opaque white, process the commands in order, then save to PNG. -/
def render (R : Raster) (self : PngRenderer)
    (commands : List DrawCommand) : RenderOutcome :=
  match Pixmap.new self.width self.height with
  | none => ⟨Except.error "Failed to create pixmap", none, []⟩
  | some pm => renderFrom R self.filePath (pm.fill skiaWhite) commands

/-- The canvas as it stands after `Pixmap::new` + `fill(WHITE)`: every pixel
opaque white. A fixed constant in `w`, `h` only. -/
def backgroundCanvas (w h : Nat) : Pixmap :=
  ⟨w, h, List.replicate (w * h) skiaWhite⟩

/-- A concrete rasteriser for witnesses: finalisation succeeds on non-empty
verb lists, fill and stroke flood the buffer with the paint colour, saving
succeeds. -/
def testRaster : Raster where
  finish vs := if vs.isEmpty then none else some vs
  fillPath pm _ paint _ := pm.fill paint.color
  strokePath pm _ paint _ := pm.fill paint.color
  savePng _ _ := Except.ok ()

/-- A rasteriser whose path finalisation always fails, to exercise the error
branches. -/
def failFinishRaster : Raster where
  finish _ := none
  fillPath pm _ _ _ := pm
  strokePath pm _ _ _ := pm
  savePng _ _ := Except.ok ()

/-- Whether a command is a `Text` command. -/
def DrawCommand.isText : DrawCommand → Bool
  | DrawCommand.text _ _ _ _ => true
  | _ => false

/-- The diagnostics a command list emits: one event per `Text` command, in
list order. -/
def textEvents : List DrawCommand → List TextEvent
  | [] => []
  | DrawCommand.text position content _ _ :: cs => ⟨content, position⟩ :: textEvents cs
  | _ :: cs => textEvents cs

/-! ## Helper lemmas -/

/-- For non-zero dimensions, `Pixmap::new` yields the transparent buffer. -/
theorem pixmapNew_eq (w h : Nat) (hw : w ≠ 0) (hh : h ≠ 0) :
    Pixmap.new w h = some ⟨w, h, List.replicate (w * h) ⟨0, 0, 0, 0⟩⟩ := by
  simp [Pixmap.new, hw, hh]

/-- For non-zero dimensions, `render` runs the command loop on the white
background canvas. -/
theorem render_background (R : Raster) (w h : Nat) (fp : String)
    (cmds : List DrawCommand) (hw : w ≠ 0) (hh : h ≠ 0) :
    render R ⟨w, h, fp⟩ cmds = renderFrom R fp (backgroundCanvas w h) cmds := by
  simp [render, pixmapNew_eq w h hw hh, Pixmap.fill, backgroundCanvas]

/-- The command loop processes an appended list left to right, aborting the
tail whenever the front errors. -/
theorem processCommands_append (R : Raster) (xs ys : List DrawCommand) :
    ∀ pm ds, processCommands R pm ds (xs ++ ys) =
      match processCommands R pm ds xs with
      | (Except.ok pm1, ds1) => processCommands R pm1 ds1 ys
      | (Except.error e, ds1) => (Except.error e, ds1) := by
  induction xs with
  | nil => intro pm ds; simp [processCommands]
  | cons c cs ih =>
    intro pm ds
    simp only [List.cons_append, processCommands]
    rcases hpc : processCommand R pm c with ⟨r, es⟩
    cases r <;> simp [ih]

/-- A command list of `Text` commands only leaves the pixel buffer untouched
and succeeds, emitting one diagnostic per command. -/
theorem processCommands_allText (R : Raster) (cmds : List DrawCommand)
    (hall : ∀ c ∈ cmds, c.isText = true) :
    ∀ pm ds, processCommands R pm ds cmds = (Except.ok pm, ds ++ textEvents cmds) := by
  induction cmds with
  | nil => intro pm ds; simp [processCommands, textEvents]
  | cons c cs ih =>
    intro pm ds
    cases c with
    | text position content fs col =>
      have hcs : ∀ c ∈ cs, c.isText = true := fun c hc => hall c (List.mem_cons_of_mem _ hc)
      simp [processCommands, processCommand, textEvents, ih hcs]
    | circle position radius fill stroke =>
      exact absurd (hall _ (List.mem_cons_self _ _)) (by simp [DrawCommand.isText])
    | line start stop stroke =>
      exact absurd (hall _ (List.mem_cons_self _ _)) (by simp [DrawCommand.isText])
    | rectangle position w h fill stroke =>
      exact absurd (hall _ (List.mem_cons_self _ _)) (by simp [DrawCommand.isText])
    | polygon points fill stroke =>
      exact absurd (hall _ (List.mem_cons_self _ _)) (by simp [DrawCommand.isText])

/-! ## Claim theorems -/

/-- C1: the path `draw_circle` constructs for centre `(cx, cy)` and radius
`r` consists of exactly four cubic Bézier segments (plus the closing
segment), starts at `(cx - r, cy)`, its cubic segments end at the four
cardinal points `(cx, cy - r)`, `(cx + r, cy)`, `(cx, cy + r)`,
`(cx - r, cy)` — so all four cardinal points are segment endpoints of the
path before any rasterisation — and every control point sits at distance
exactly `k * r` from its adjacent on-curve endpoint, where `k` is the magic
constant `0.5522847498`. -/
theorem circle_path_four_beziers (cx cy r : ℚ) :
    k = (0.5522847498 : ℚ) ∧
    countCubics (circleVerbs cx cy r) = 4 ∧
    (segments (circleVerbs cx cy r)).length = 5 ∧
    pathStart (circleVerbs cx cy r) = some ⟨cx - r, cy⟩ ∧
    cubicTargets (circleVerbs cx cy r) =
      [⟨cx, cy - r⟩, ⟨cx + r, cy⟩, ⟨cx, cy + r⟩, ⟨cx - r, cy⟩] ∧
    controlOffsetsSq (circleVerbs cx cy r) = List.replicate 8 ((k * r) ^ 2) := by
  refine ⟨by norm_num [k], ?_, ?_, ?_, ?_, ?_⟩ <;>
    simp [circleVerbs, countCubics, segments, segmentsAux, cubicTargets, controlOffsetsSq,
      Seg.isCubic, Seg.target, Seg.controlOffsetsSq, pathStart, sqDist, List.replicate,
      sub_sub_cancel_left, add_sub_cancel_left, neg_sq]

/-- C2: if processing a command fails, `render` returns that error, the
remaining commands are never processed (the outcome is the same for any
suffix after the failing command), and the pixel buffer is never handed to
`save_png` (`written = none`). -/
theorem render_failure_aborts (R : Raster) (self : PngRenderer)
    (pre rest rest' : List DrawCommand) (c : DrawCommand) (pm : Pixmap)
    (ds : List TextEvent) (e : String)
    (hw : self.width ≠ 0) (hh : self.height ≠ 0)
    (hpre : processCommands R (backgroundCanvas self.width self.height) [] pre =
      (Except.ok pm, ds))
    (hc : (processCommand R pm c).1 = Except.error e) :
    (render R self (pre ++ c :: rest)).result = Except.error e ∧
    (render R self (pre ++ c :: rest)).written = none ∧
    render R self (pre ++ c :: rest) = render R self (pre ++ c :: rest') := by
  obtain ⟨w, h, fp⟩ := self
  simp only at hw hh hpre
  rcases hpc : processCommand R pm c with ⟨r, es⟩
  rw [hpc] at hc; simp only at hc; subst hc
  have key : ∀ rest0 : List DrawCommand,
      processCommands R (backgroundCanvas w h) [] (pre ++ c :: rest0) =
        (Except.error e, ds ++ es) := by
    intro rest0
    rw [processCommands_append, hpre]
    simp [processCommands, hpc]
  rw [render_background R w h fp _ hw hh, render_background R w h fp _ hw hh]
  simp [renderFrom, key]

/-- C2 witness: a circle command whose path finalisation fails aborts a
concrete render with the path error, writes nothing, and any commands after
it are irrelevant to the outcome. -/
theorem render_failure_aborts_witness :
    (render failFinishRaster ⟨1, 1, "out.png"⟩
        [DrawCommand.circle ⟨0, 0⟩ 1 none none]).result =
      Except.error "Failed to build circle path" ∧
    (render failFinishRaster ⟨1, 1, "out.png"⟩
        [DrawCommand.circle ⟨0, 0⟩ 1 none none]).written = none ∧
    render failFinishRaster ⟨1, 1, "out.png"⟩ [DrawCommand.circle ⟨0, 0⟩ 1 none none] =
      render failFinishRaster ⟨1, 1, "out.png"⟩
        [DrawCommand.circle ⟨0, 0⟩ 1 none none, DrawCommand.text ⟨0, 0⟩ "x" 1 none] :=
  render_failure_aborts failFinishRaster ⟨1, 1, "out.png"⟩ [] []
    [DrawCommand.text ⟨0, 0⟩ "x" 1 none] (DrawCommand.circle ⟨0, 0⟩ 1 none none)
    (backgroundCanvas 1 1) [] "Failed to build circle path"
    (by decide) (by decide) rfl rfl

/-- C3: a stroke whose colour is absent never draws: for every shape, drawing
with `stroke = Some { color: None, width: wd }` yields exactly the same pixel
buffer (and error behaviour) as `stroke = None`, for any width `wd`. -/
theorem colorless_stroke_noop (R : Raster) (pm : Pixmap) (position start stop : Pt)
    (radius w h wd : ℚ) (fill : Option Color) (pts : List Pt) :
    drawCircle R pm position radius fill (some ⟨none, wd⟩) =
      drawCircle R pm position radius fill none ∧
    drawLine R pm start stop (some ⟨none, wd⟩) = drawLine R pm start stop none ∧
    drawRectangle R pm position w h fill (some ⟨none, wd⟩) =
      drawRectangle R pm position w h fill none ∧
    drawPolygon R pm pts fill (some ⟨none, wd⟩) = drawPolygon R pm pts fill none ∧
    processCommand R pm (DrawCommand.circle position radius fill (some ⟨none, wd⟩)) =
      processCommand R pm (DrawCommand.circle position radius fill none) ∧
    processCommand R pm (DrawCommand.line start stop (some ⟨none, wd⟩)) =
      processCommand R pm (DrawCommand.line start stop none) ∧
    processCommand R pm (DrawCommand.rectangle position w h fill (some ⟨none, wd⟩)) =
      processCommand R pm (DrawCommand.rectangle position w h fill none) ∧
    processCommand R pm (DrawCommand.polygon pts fill (some ⟨none, wd⟩)) =
      processCommand R pm (DrawCommand.polygon pts fill none) := by
  have hcirc : drawCircle R pm position radius fill (some ⟨none, wd⟩) =
      drawCircle R pm position radius fill none := by
    simp only [drawCircle]
  have hline : drawLine R pm start stop (some ⟨none, wd⟩) =
      drawLine R pm start stop none := by
    simp only [drawLine]
  have hrect : drawRectangle R pm position w h fill (some ⟨none, wd⟩) =
      drawRectangle R pm position w h fill none := by
    simp only [drawRectangle]
  have hpoly : drawPolygon R pm pts fill (some ⟨none, wd⟩) =
      drawPolygon R pm pts fill none := by
    cases pts with
    | nil => rfl
    | cons p rest =>
      simp only [drawPolygon]
  exact ⟨hcirc, hline, hrect, hpoly,
    by simp [processCommand, hcirc], by simp [processCommand, hline],
    by simp [processCommand, hrect], by simp [processCommand, hpoly]⟩

/-- C4: within one command carrying both a fill colour and a stroke with a
present colour, the fill of the path is composited strictly before the
stroke of the same path: the result is the stroke operation applied on top
of the fill operation's output, for circles, rectangles and (non-empty)
polygons alike. -/
theorem fill_before_stroke (R : Raster) (pm : Pixmap) (position : Pt)
    (radius w h wd : ℚ) (fc sc : Color) (p0 : Pt) (pts : List Pt)
    (cpath rpath ppath : List Verb)
    (hc : R.finish (circleVerbs position.x position.y radius) = some cpath)
    (hr : R.finish (rectVerbs position w h) = some rpath)
    (hp : R.finish (polygonVerbs (p0 :: pts)) = some ppath) :
    drawCircle R pm position radius (some fc) (some ⟨some sc, wd⟩) =
      Except.ok (R.strokePath (R.fillPath pm cpath (createPaint fc) FillRule.winding)
        cpath (createPaint sc) ⟨wd⟩) ∧
    drawRectangle R pm position w h (some fc) (some ⟨some sc, wd⟩) =
      Except.ok (R.strokePath (R.fillPath pm rpath (createPaint fc) FillRule.winding)
        rpath (createPaint sc) ⟨wd⟩) ∧
    drawPolygon R pm (p0 :: pts) (some fc) (some ⟨some sc, wd⟩) =
      Except.ok (R.strokePath (R.fillPath pm ppath (createPaint fc) FillRule.winding)
        ppath (createPaint sc) ⟨wd⟩) := by
  refine ⟨?_, ?_, ?_⟩ <;>
    simp [drawCircle, drawRectangle, drawPolygon, hc, hr, hp, createStroke]

/-- C4 witness: on a concrete rasteriser a filled-and-stroked circle yields
the stroke pass applied over the fill pass. -/
theorem fill_before_stroke_witness :
    drawCircle testRaster (backgroundCanvas 1 1) ⟨0, 0⟩ 1 (some ⟨255, 0, 0, 255⟩)
        (some ⟨some ⟨0, 0, 255, 255⟩, 1⟩) =
      Except.ok (testRaster.strokePath
        (testRaster.fillPath (backgroundCanvas 1 1) (circleVerbs 0 0 1)
          (createPaint ⟨255, 0, 0, 255⟩) FillRule.winding)
        (circleVerbs 0 0 1) (createPaint ⟨0, 0, 255, 255⟩) ⟨1⟩) :=
  (fill_before_stroke testRaster (backgroundCanvas 1 1) ⟨0, 0⟩ 1 2 3 1
    ⟨255, 0, 0, 255⟩ ⟨0, 0, 255, 255⟩ ⟨0, 0⟩ [⟨1, 1⟩]
    (circleVerbs 0 0 1) (rectVerbs ⟨0, 0⟩ 2 3) (polygonVerbs [⟨0, 0⟩, ⟨1, 1⟩])
    rfl rfl rfl).1

/-- C5: a `Text` command leaves the pixel buffer untouched, raises no error
and emits a diagnostic identifying its content and position; a render whose
command list contains only `Text` commands succeeds and hands the untouched
white background canvas to the encoder. -/
theorem text_commands_pixel_noop (R : Raster) (self : PngRenderer)
    (cmds : List DrawCommand) (position : Pt) (content : String) (fs : ℚ)
    (col : Option Color) (pm : Pixmap)
    (hw : self.width ≠ 0) (hh : self.height ≠ 0)
    (hall : ∀ c ∈ cmds, c.isText = true)
    (hsave : ∀ q s, R.savePng q s = Except.ok ()) :
    processCommand R pm (DrawCommand.text position content fs col) =
      (Except.ok pm, [⟨content, position⟩]) ∧
    (render R self cmds).result = Except.ok () ∧
    (render R self cmds).written = some (backgroundCanvas self.width self.height) ∧
    (render R self cmds).diagnostics = textEvents cmds := by
  obtain ⟨w, h, fp⟩ := self
  simp only at hw hh ⊢
  rw [render_background R w h fp cmds hw hh]
  simp [renderFrom, processCommands_allText R cmds hall, processCommand, hsave]

/-- C5 witness: a single concrete `Text` command renders successfully,
leaves the 1×1 canvas all white and emits its diagnostic. -/
theorem text_commands_pixel_noop_witness :
    processCommand testRaster (backgroundCanvas 1 1)
        (DrawCommand.text ⟨3, 4⟩ "hello" 12 none) =
      (Except.ok (backgroundCanvas 1 1), [⟨"hello", ⟨3, 4⟩⟩]) ∧
    (render testRaster ⟨1, 1, "out.png"⟩
        [DrawCommand.text ⟨3, 4⟩ "hello" 12 none]).result = Except.ok () ∧
    (render testRaster ⟨1, 1, "out.png"⟩
        [DrawCommand.text ⟨3, 4⟩ "hello" 12 none]).written =
      some (backgroundCanvas 1 1) ∧
    (render testRaster ⟨1, 1, "out.png"⟩
        [DrawCommand.text ⟨3, 4⟩ "hello" 12 none]).diagnostics =
      textEvents [DrawCommand.text ⟨3, 4⟩ "hello" 12 none] :=
  text_commands_pixel_noop testRaster ⟨1, 1, "out.png"⟩
    [DrawCommand.text ⟨3, 4⟩ "hello" 12 none] ⟨3, 4⟩ "hello" 12 none
    (backgroundCanvas 1 1) (by decide) (by decide)
    (by decide) (fun q s => rfl)

/-- C6: a `Polygon` command with an empty point list succeeds immediately,
builds no path verbs and changes no pixel — for every rasteriser, the
buffer returned is the input buffer, untouched by any fill or stroke. -/
theorem empty_polygon_noop (R : Raster) (pm : Pixmap) (fill : Option Color)
    (stroke : Option Stroke) :
    drawPolygon R pm [] fill stroke = Except.ok pm ∧
    processCommand R pm (DrawCommand.polygon [] fill stroke) = (Except.ok pm, []) ∧
    polygonVerbs [] = [] :=
  ⟨rfl, rfl, rfl⟩

/-- C7: with non-zero dimensions, `render` allocates the canvas and fills it
entirely with fully opaque white before any command is processed; the
background canvas is the fixed constant determined by width and height
alone, independent of the command list and the output path. -/
theorem background_white_fixed (R : Raster) (w h : Nat) (fp : String)
    (cmds : List DrawCommand) (hw : w ≠ 0) (hh : h ≠ 0) :
    render R ⟨w, h, fp⟩ cmds = renderFrom R fp (backgroundCanvas w h) cmds ∧
    Pixmap.new w h = some ⟨w, h, List.replicate (w * h) ⟨0, 0, 0, 0⟩⟩ ∧
    Pixmap.fill ⟨w, h, List.replicate (w * h) ⟨0, 0, 0, 0⟩⟩ skiaWhite =
      backgroundCanvas w h ∧
    (backgroundCanvas w h).pixels = List.replicate (w * h) ⟨255, 255, 255, 255⟩ ∧
    (backgroundCanvas w h).width = w ∧ (backgroundCanvas w h).height = h :=
  ⟨render_background R w h fp cmds hw hh, pixmapNew_eq w h hw hh, rfl, rfl, rfl, rfl⟩

/-- C7 witness: a concrete 1×1 render starts from the all-white background
canvas. -/
theorem background_white_fixed_witness :
    render testRaster ⟨1, 1, "out.png"⟩ [] =
      renderFrom testRaster "out.png" (backgroundCanvas 1 1) [] ∧
    Pixmap.new 1 1 = some ⟨1, 1, List.replicate (1 * 1) ⟨0, 0, 0, 0⟩⟩ ∧
    (backgroundCanvas 1 1).pixels = List.replicate (1 * 1) ⟨255, 255, 255, 255⟩ :=
  ⟨(background_white_fixed testRaster 1 1 "out.png" [] (by decide) (by decide)).1,
   (background_white_fixed testRaster 1 1 "out.png" [] (by decide) (by decide)).2.1,
   (background_white_fixed testRaster 1 1 "out.png" []
      (by decide) (by decide)).2.2.2.1⟩

/-- C8: rendering is deterministic — the pixel buffer handed to the encoder
and the emitted diagnostics are a function of the width, the height and the
command list only; in particular they do not depend on the output file
path. -/
theorem render_deterministic (R : Raster) (w h : Nat) (fp fp' : String)
    (cmds : List DrawCommand) :
    (render R ⟨w, h, fp⟩ cmds).written = (render R ⟨w, h, fp'⟩ cmds).written ∧
    (render R ⟨w, h, fp⟩ cmds).diagnostics =
      (render R ⟨w, h, fp'⟩ cmds).diagnostics := by
  cases hnew : Pixmap.new w h with
  | none => simp [render, hnew]
  | some pm =>
    rcases hpc : processCommands R (pm.fill skiaWhite) [] cmds with ⟨r, ds⟩
    cases r <;> simp [render, renderFrom, hnew, hpc]

/-- C9: `create_stroke` is total — it returns `Some` for every stroke value —
so the `"Failed to create stroke"` branch of every shape drawer is dead:
the only error any drawer can return is its path-finalisation error. -/
theorem create_stroke_total (s : Stroke) (R : Raster) (pm : Pixmap)
    (position start stop : Pt) (radius w h : ℚ) (fill : Option Color)
    (stroke : Option Stroke) (pts : List Pt) (e : String) :
    createStroke s = some ⟨s.width⟩ ∧
    (createStroke s).isSome = true ∧
    (drawCircle R pm position radius fill stroke = Except.error e →
      e = "Failed to build circle path") ∧
    (drawLine R pm start stop stroke = Except.error e →
      e = "Failed to build line path") ∧
    (drawRectangle R pm position w h fill stroke = Except.error e →
      e = "Failed to build rectangle path") ∧
    (drawPolygon R pm pts fill stroke = Except.error e →
      e = "Failed to build polygon path") := by
  refine ⟨rfl, rfl, ?_, ?_, ?_, ?_⟩
  · simp only [drawCircle]
    cases R.finish (circleVerbs position.x position.y radius) with
    | none => intro hcontra; simpa using hcontra.symm
    | some path =>
      rcases stroke with _ | ⟨⟨_ | sc, wd⟩⟩ <;> simp [createStroke]
  · simp only [drawLine]
    cases R.finish (lineVerbs start stop) with
    | none => intro hcontra; simpa using hcontra.symm
    | some path =>
      rcases stroke with _ | ⟨⟨_ | sc, wd⟩⟩ <;> simp [createStroke]
  · simp only [drawRectangle]
    cases R.finish (rectVerbs position w h) with
    | none => intro hcontra; simpa using hcontra.symm
    | some path =>
      rcases stroke with _ | ⟨⟨_ | sc, wd⟩⟩ <;> simp [createStroke]
  · cases pts with
    | nil => simp [drawPolygon]
    | cons p rest =>
      simp only [drawPolygon]
      cases R.finish (polygonVerbs (p :: rest)) with
      | none => intro hcontra; simpa using hcontra.symm
      | some path =>
        rcases stroke with _ | ⟨⟨_ | sc, wd⟩⟩ <;> simp [createStroke]

/-- C9 witness: `create_stroke` succeeds on a concrete stroke, and for a
concrete failing drawer the only error is the path error. -/
theorem create_stroke_total_witness :
    createStroke ⟨none, 2⟩ = some ⟨(⟨none, 2⟩ : Stroke).width⟩ ∧
    "Failed to build circle path" = "Failed to build circle path" :=
  ⟨(create_stroke_total ⟨none, 2⟩ failFinishRaster (backgroundCanvas 1 1)
      ⟨0, 0⟩ ⟨0, 0⟩ ⟨1, 1⟩ 1 1 1 none none [] "Failed to build circle path").1,
   (create_stroke_total ⟨none, 2⟩ failFinishRaster (backgroundCanvas 1 1)
      ⟨0, 0⟩ ⟨0, 0⟩ ⟨1, 1⟩ 1 1 1 none none [] "Failed to build circle path").2.2.1 rfl⟩

/-- C10: for a non-empty point list — a single point included — the polygon
drawer builds the move/line/close path, reports path-finalisation failure
as an error (never a no-op), and on success attempts fill-then-stroke
compositing on the built path. -/
theorem polygon_nonempty_builds_path (R : Raster) (pm : Pixmap) (p0 : Pt)
    (rest : List Pt) (fill : Option Color) (stroke : Option Stroke) :
    polygonVerbs (p0 :: rest) =
      Verb.moveTo p0 :: (rest.map Verb.lineTo ++ [Verb.close]) ∧
    (R.finish (polygonVerbs (p0 :: rest)) = none →
      drawPolygon R pm (p0 :: rest) fill stroke =
        Except.error "Failed to build polygon path") ∧
    (∀ path, R.finish (polygonVerbs (p0 :: rest)) = some path →
      drawPolygon R pm (p0 :: rest) none none = Except.ok pm) ∧
    (∀ path fc sc wd, R.finish (polygonVerbs (p0 :: rest)) = some path →
      drawPolygon R pm (p0 :: rest) (some fc) (some ⟨some sc, wd⟩) =
        Except.ok (R.strokePath (R.fillPath pm path (createPaint fc) FillRule.winding)
          path (createPaint sc) ⟨wd⟩)) := by
  refine ⟨rfl, ?_, ?_, ?_⟩
  · intro hfin; simp [drawPolygon, hfin]
  · intro path hfin; simp [drawPolygon, hfin]
  · intro path fc sc wd hfin; simp [drawPolygon, hfin, createStroke]

/-- C10 witness: a one-point polygon builds the move/close path, and with a
rasteriser that rejects it the drawer reports the path error. -/
theorem polygon_nonempty_builds_path_witness :
    polygonVerbs [(⟨5, 5⟩ : Pt)] = [Verb.moveTo ⟨5, 5⟩, Verb.close] ∧
    drawPolygon failFinishRaster (backgroundCanvas 1 1) [⟨5, 5⟩] none none =
      Except.error "Failed to build polygon path" :=
  ⟨(polygon_nonempty_builds_path testRaster (backgroundCanvas 1 1)
      ⟨5, 5⟩ [] none none).1,
   (polygon_nonempty_builds_path failFinishRaster (backgroundCanvas 1 1)
      ⟨5, 5⟩ [] none none).2.1 rfl⟩

end GraceX
